import Mathlib

/-!
Shallow embedding of `main.py` of the meta_newsletter service: a FastAPI app
that fetches Gmail newsletters and asks an LLM for a structured digest.

External effects (HTTP round-trips to the OAuth endpoint, the Gmail API and
the LLM) are modelled as explicit oracle parameters; a raised Python
exception is modelled as an `Except` error; an `HTTPException(status, detail)`
is distinguished from a plain uncaught exception by the `PyError` type.
-/

namespace MetaNewsletter

/-- A Python exception escaping a handler: either a deliberately raised
`HTTPException(status_code, detail)` or an uncaught ordinary exception
carrying its message. -/
inductive PyError where
  | http (status : Nat) (detail : String)
  | exn (msg : String)
deriving DecidableEq

/-- The `Newsletter` pydantic model of `main.py`: `subject`, `sender`,
`content`, all strings. -/
structure Newsletter where
  subject : String
  sender : String
  content : String
deriving DecidableEq

/-! ## Digest Generator: JSON-span extraction (`summarize`, lines 151-158)

`re.search(r'\x7b.*\x7d', text, re.S)` finds the leftmost-longest match:
the span from the first brace-open that has a brace-close after it through
the last brace-close of the whole text, `.` matching newlines. Since any
brace-open after the last brace-close can start no match, this is the span
from the first brace-open through the last brace-close when the former
precedes the latter, and no match otherwise. -/

/-- Index of the first occurrence of `'\x7b'` in the text, if any. -/
def firstOpenIdx (s : List Char) : Option Nat :=
  s.findIdx? (· = '{')

/-- Index of the last occurrence of `'\x7d'` in the text, if any. -/
def lastCloseIdx (s : List Char) : Option Nat :=
  (s.reverse.findIdx? (· = '}')).map (fun k => s.length - 1 - k)

/-- `re.search(r'\x7b.*\x7d', text, re.S).group(0)` as an Option:
the span from the first brace-open through the last brace-close, provided
the first brace-open precedes the last brace-close. -/
def extractJsonSpan (s : List Char) : Option (List Char) :=
  match firstOpenIdx s, lastCloseIdx s with
  | some i, some j => if i < j then some ((s.drop i).take (j + 1 - i)) else none
  | _, _ => none

/-- Message of the `AttributeError` raised by `.group(0)` when `re.search`
returned `None` (no span found). -/
def noSpanMsg : String := "\x27NoneType\x27 object has no attribute \x27group\x27"

/-- Lines 151-158 of `main.py`: locate the JSON span in the raw model
response, run `json.loads` on it, and wrap any exception into
`HTTPException(500, f"Failed to parse JSON from GPT: \x7be\x7d")`.
`jsonLoads` is the oracle standing for Python's `json.loads`; the parsed
value is returned as-is (no structural validation), so its type `J` is a
parameter. -/
def parseModelResponse {J : Type} (jsonLoads : List Char → Except String J)
    (text : List Char) : Except PyError J :=
  match extractJsonSpan text with
  | none => .error (.http 500 ("Failed to parse JSON from GPT: " ++ noSpanMsg))
  | some span =>
    match jsonLoads span with
    | .error e => .error (.http 500 ("Failed to parse JSON from GPT: " ++ e))
    | .ok d => .ok d

/-- The fixed instruction / schema / rules block of the `summarize` prompt
(lines 110-135 of `main.py`). -/
def promptInstructions : String :=
  "You are an expert newsletter curator. Your job is to read newsletters from multiple sources and:\n" ++
  "1. Write a TL;DR with 4–6 *concise*, single-sentence bullets summarizing key takeaways or the most important news stories. " ++
  "Each bullet should be ≤ 18 words and must *not* be copy-pasted from the detailed stories.\n" ++
  "\n" ++
  "2. Then, find the most important stories and insights from newsletters. Group and write them into relevant THEMES (e.g., Tech, Markets, Policy, etc). Please have no more than 5 themes. If more than 5 is needed, make the 5th theme \x27Miscellaneous\x27.\n" ++
  "   - Each story in each theme should be a **detailed multi-sentence summary**, ~3 sentences.\n" ++
  "   - Each story must include context, outcome, significance, and optionally source attribution.\n" ++
  "   - No bullet points in this section; use full sentences.\n" ++
  "Output format (strict JSON):\n" ++
  "\x7b\n" ++
  "  \"tldr\": [\"...\", \"...\"],\n" ++
  "  \"topics\": [\n" ++
  "    \x7b\"name\": \"Theme Name\", \"items\": [\n" ++
  "      \x7b \"headline\": \"Multi-sentence description.\", \"source\": \"Source Name\" \x7d,\n" ++
  "      ...\n" ++
  "    ]\x7d\n" ++
  "  ]\n" ++
  "\x7d\n\n" ++
  "Rules:\n" ++
  "- TL;DR bullets must be unique and paraphrased (not repeated from headlines).\n" ++
  "- Each theme\x27s stories should contain details than the TL;DR bullets. Overlap with the TL;DR bullets is okay.\n" ++
  "- Headline + source only; no extra fields.\n" ++
  "- Never include explanations, markdown, or commentary outside the JSON block.\n\n" ++
  "Newsletters:\n\n"

/-- One per-newsletter block appended to the prompt (line 138 of `main.py`). -/
def newsletterBlock (n : Newsletter) : String :=
  "\n---\nFrom: " ++ n.sender ++ " | Subject: " ++ n.subject ++ "\n" ++ n.content ++ "\n"

/-- The full prompt string built by `summarize` (lines 110-138). -/
def buildPrompt (newsletters : List Newsletter) : String :=
  promptInstructions ++ String.join (newsletters.map newsletterBlock)

/-- The `summarize` handler (lines 105-158 of `main.py`). `llm` is the oracle
standing for the chat-completion call: it maps the prompt to the raw text of
the model response. The second component records whether the LLM was invoked.
An empty newsletter list raises `HTTPException(400, "No newsletters provided")`
before the LLM call; otherwise the prompt is built, the LLM called, and the
response parsed by `parseModelResponse`. -/
def summarize {J : Type} (llm : String → String)
    (jsonLoads : List Char → Except String J)
    (newsletters : List Newsletter) : Except PyError J × Bool :=
  if newsletters = [] then
    (.error (.http 400 "No newsletters provided"), false)
  else
    (parseModelResponse jsonLoads (llm (buildPrompt newsletters)).data, true)

/-! ## Mail Body Extractor (`extract_email_body`, lines 180-192)

The leaf case runs `base64.urlsafe_b64decode(data).decode("utf-8",
errors="ignore")` with no exception handler, so a `binascii.Error` from bad
base64 propagates out of the extractor. We model CPython's non-strict
`binascii.a2b_base64`: characters outside the base64 alphabet are skipped,
a padding character at quad position >= 2 that completes the quad ends the
decode, and a final incomplete quad raises (`quad_pos = 1` gives the
"cannot be 1 more than a multiple of 4" error, otherwise "Incorrect
padding"). -/

/-- Value of a base64-alphabet character, `none` for any other character
(such characters are skipped by the non-strict decoder). -/
def b64CharVal (c : Char) : Option Nat :=
  if 'A' ≤ c ∧ c ≤ 'Z' then some (c.toNat - 65)
  else if 'a' ≤ c ∧ c ≤ 'z' then some (c.toNat - 97 + 26)
  else if '0' ≤ c ∧ c ≤ '9' then some (c.toNat - 48 + 52)
  else if c = '+' then some 62
  else if c = '/' then some 63
  else none

/-- The decode loop of CPython's non-strict `binascii.a2b_base64`.
State: `quad_pos` (position within the current 4-character quad),
`leftchar` (bits carried between characters), `pads` (consecutive padding
characters seen at `quad_pos ≥ 2`), and the reversed output byte
accumulator. -/
def a2b_base64_loop : List Char → Nat → Nat → Nat → List Nat → Except String (List Nat)
  | [], quad_pos, _, _, acc =>
    if quad_pos = 0 then .ok acc.reverse
    else if quad_pos = 1 then
      .error ("Invalid base64-encoded string: number of data characters (" ++
        toString (acc.length / 3 * 4 + 1) ++ ") cannot be 1 more than a multiple of 4")
    else .error "Incorrect padding"
  | c :: rest, quad_pos, leftchar, pads, acc =>
    if c = '=' then
      if 2 ≤ quad_pos ∧ 4 ≤ quad_pos + (pads + 1) then .ok acc.reverse
      else if 2 ≤ quad_pos then a2b_base64_loop rest quad_pos leftchar (pads + 1) acc
      else a2b_base64_loop rest quad_pos leftchar pads acc
    else
      match b64CharVal c with
      | none => a2b_base64_loop rest quad_pos leftchar pads acc
      | some v =>
        match quad_pos with
        | 0 => a2b_base64_loop rest 1 v 0 acc
        | 1 => a2b_base64_loop rest 2 (v % 16) 0 ((leftchar * 4 + v / 16) :: acc)
        | 2 => a2b_base64_loop rest 3 (v % 4) 0 ((leftchar * 16 + v / 4) :: acc)
        | _ => a2b_base64_loop rest 0 0 0 ((leftchar * 64 + v) :: acc)

/-- The `-` → `+`, `_` → `/` translation applied by `urlsafe_b64decode`. -/
def urlsafeTranslate (c : Char) : Char :=
  if c = '-' then '+' else if c = '_' then '/' else c

/-- `base64.urlsafe_b64decode` on a `str` argument: reject non-ASCII input
(`ValueError` from `_bytes_from_decode_data`), translate the urlsafe
alphabet, then run the non-strict base64 decode, which raises
`binascii.Error` on an incomplete final quad. Bytes are modelled as `Nat`s
below 256. -/
def urlsafe_b64decode (s : String) : Except String (List Nat) :=
  if s.data.all (fun c => c.toNat < 128) then
    a2b_base64_loop (s.data.map urlsafeTranslate) 0 0 0 []
  else .error "string argument should contain only ASCII characters"

/-- Continuation byte test for UTF-8. -/
def isCont (b : Nat) : Bool := 0x80 ≤ b ∧ b < 0xC0

/-- Valid second byte of a 3-byte UTF-8 sequence headed by `b`
(excluding overlong encodings and surrogates, as CPython does). -/
def validSecond3 (b b1 : Nat) : Bool :=
  if b = 0xE0 then 0xA0 ≤ b1 ∧ b1 ≤ 0xBF
  else if b = 0xED then 0x80 ≤ b1 ∧ b1 ≤ 0x9F
  else isCont b1

/-- Valid second byte of a 4-byte UTF-8 sequence headed by `b`
(excluding overlong encodings and codepoints above U+10FFFF). -/
def validSecond4 (b b1 : Nat) : Bool :=
  if b = 0xF0 then 0x90 ≤ b1 ∧ b1 ≤ 0xBF
  else if b = 0xF4 then 0x80 ≤ b1 ∧ b1 ≤ 0x8F
  else isCont b1

/-- `bytes.decode("utf-8", errors="ignore")`: decode UTF-8, dropping (not
replacing) the bytes of any malformed sequence — the maximal valid subpart
of a malformed sequence is skipped, and a truncated sequence at end of
input is dropped. Total: never fails. -/
def utf8DecodeIgnore (l : List Nat) : List Char :=
  match l with
  | [] => []
  | b :: rest =>
    if b < 0x80 then Char.ofNat b :: utf8DecodeIgnore rest
    else if 0xC2 ≤ b ∧ b ≤ 0xDF then
      match rest with
      | [] => []
      | b1 :: rest2 =>
        if isCont b1 then
          Char.ofNat ((b - 0xC0) * 64 + (b1 - 0x80)) :: utf8DecodeIgnore rest2
        else utf8DecodeIgnore (b1 :: rest2)
    else if 0xE0 ≤ b ∧ b ≤ 0xEF then
      match rest with
      | [] => []
      | b1 :: rest2 =>
        if validSecond3 b b1 then
          match rest2 with
          | [] => []
          | b2 :: rest3 =>
            if isCont b2 then
              Char.ofNat ((b - 0xE0) * 4096 + (b1 - 0x80) * 64 + (b2 - 0x80)) ::
                utf8DecodeIgnore rest3
            else utf8DecodeIgnore (b2 :: rest3)
        else utf8DecodeIgnore (b1 :: rest2)
    else if 0xF0 ≤ b ∧ b ≤ 0xF4 then
      match rest with
      | [] => []
      | b1 :: rest2 =>
        if validSecond4 b b1 then
          match rest2 with
          | [] => []
          | b2 :: rest3 =>
            if isCont b2 then
              match rest3 with
              | [] => []
              | b3 :: rest4 =>
                if isCont b3 then
                  Char.ofNat ((b - 0xF0) * 262144 + (b1 - 0x80) * 4096 +
                    (b2 - 0x80) * 64 + (b3 - 0x80)) :: utf8DecodeIgnore rest4
                else utf8DecodeIgnore (b3 :: rest4)
            else utf8DecodeIgnore (b2 :: rest3)
        else utf8DecodeIgnore (b1 :: rest2)
    else utf8DecodeIgnore rest
termination_by l.length
decreasing_by all_goals simp_arith

/-- `base64.urlsafe_b64decode(data).decode("utf-8", errors="ignore")`
(line 191 of `main.py`): only the base64 stage can fail. -/
def decodeBodyData (data : String) : Except String String :=
  (urlsafe_b64decode data).map (fun bs => ⟨utf8DecodeIgnore bs⟩)

/-- One `\x7bname, value\x7d` entry of a Gmail `headers` list. -/
structure GHeader where
  name : String
  value : String
deriving DecidableEq

/-- A Gmail payload dict as `extract_email_body` and `grab_newsletters`
read it: either the dict has a `parts` key (a list of child payloads) or it
does not; either way it may carry `headers`, `mimeType` and `body.data`
entries. `bodyData = none` models an absent `body` dict or absent `data`
key. -/
inductive Payload where
  | withParts (headers : List GHeader) (parts : List Payload)
      (mimeType : Option String) (bodyData : Option String)
  | leaf (headers : List GHeader) (mimeType : Option String)
      (bodyData : Option String)

/-- Python truthiness of the `body` variable in the `parts` loop:
`None` and the empty string are falsy. -/
def pyTruthy : Option String → Bool
  | none => false
  | some s => s ≠ ""

mutual

/-- `extract_email_body` (lines 180-192 of `main.py`). A dict with a
`parts` key recurses over the children, returning the first truthy body; a
leaf whose `mimeType` is `text/plain` or `text/html` with truthy
`body.data` decodes it (a decode exception propagates as `.error`);
everything else returns `None`. -/
def extract_email_body : Payload → Except String (Option String)
  | .withParts _ parts _ _ => extractFromParts parts
  | .leaf _ mimeType bodyData =>
    if mimeType = some "text/plain" ∨ mimeType = some "text/html" then
      match bodyData with
      | some data =>
        if data ≠ "" then
          match decodeBodyData data with
          | .error e => .error e
          | .ok t => .ok (some t)
        else .ok none
      | none => .ok none
    else .ok none

/-- The `for part in payload[\x27parts\x27]` loop of `extract_email_body`:
return the first recursive result that is truthy; a propagating exception
aborts the loop; if no child yields a truthy body, fall through to
`return None`. -/
def extractFromParts : List Payload → Except String (Option String)
  | [] => .ok none
  | p :: rest =>
    match extract_email_body p with
    | .error e => .error e
    | .ok body => if pyTruthy body then .ok body else extractFromParts rest

end

/-- The `headers` list of a payload dict (`payload.get("headers", [])`). -/
def Payload.headersOf : Payload → List GHeader
  | .withParts hs _ _ _ => hs
  | .leaf hs _ _ => hs

/-! ## Token Provider (`get_gmail_access_token`, lines 163-177) -/

/-- `get_gmail_access_token` (lines 163-177 of `main.py`), parameterized by
the token endpoint's response: HTTP status, body text, and the
`access_token` field of the JSON body (absent gives `None`, as
`.get("access_token")` does). On status 200 the token is returned; on any
other status the provider's status and body are `print`ed (second
component: the lines written to stdout) and a generic
`HTTPException(500, "Failed to get Gmail access token.")` is raised
immediately — no retry. -/
def get_gmail_access_token (status : Nat) (text : String)
    (jsonAccessToken : Option String) : Except PyError (Option String) × List String :=
  if status = 200 then (.ok jsonAccessToken, [])
  else (.error (.http 500 "Failed to get Gmail access token."),
        ["Status: " ++ toString status, "Text: " ++ text])

/-! ## Newsletter Fetcher (`grab_newsletters`, lines 195-243) -/

/-- The header lookup of lines 234-235:
`next((h[\x27value\x27] for h in email_headers if h[\x27name\x27] == nm), deflt)` —
the value of the first header whose name equals `nm` exactly
(case-sensitive `==`), or the default when none matches. -/
def lookupHeader (headers : List GHeader) (nm deflt : String) : String :=
  match headers.find? (fun h => h.name = nm) with
  | some h => h.value
  | none => deflt

/-- Python `x or y` for the body string: `extract_email_body(payload) or
"[No content found]"` — `None` and the empty string are falsy and give the
default. -/
def pyOrStr (body : Option String) (deflt : String) : String :=
  match body with
  | some s => if s = "" then deflt else s
  | none => deflt

/-- A message-detail response: HTTP status and the `payload` entry of the
JSON body (`msg_data.get("payload", \x7b\x7d)` defaults to an empty dict,
modelled by `none` here and `defaultPayload` at use). -/
structure DetailResponse where
  status : Nat
  payload : Option Payload

/-- The empty dict that `msg_data.get("payload", \x7b\x7d)` falls back to:
no `parts`, no `headers`, no `mimeType`, no `body`. -/
def defaultPayload : Payload := .leaf [] none none

/-- The `for message in messages[:10]` loop of `grab_newsletters`
(lines 219-241), parameterized by the detail-fetch oracle mapping a message
id to its `DetailResponse`. Returns the accumulated newsletter list (or a
propagating exception from body decoding) together with the trace of
message ids for which a detail fetch was issued, in order. A non-200
detail response skips the message and continues; a decode exception aborts
the whole loop. -/
def processMessages (fetchDetail : String → DetailResponse) :
    List String → Except String (List Newsletter) × List String
  | [] => (.ok [], [])
  | mid :: rest =>
    let resp := fetchDetail mid
    if resp.status ≠ 200 then
      let r := processMessages fetchDetail rest
      (r.1, mid :: r.2)
    else
      let pl := resp.payload.getD defaultPayload
      match extract_email_body pl with
      | .error e => (.error e, [mid])
      | .ok body =>
        let content := pyOrStr body "[No content found]"
        let hs := pl.headersOf
        let nl : Newsletter :=
          ⟨lookupHeader hs "Subject" "No Subject",
           lookupHeader hs "From" "Unknown Sender", content⟩
        let r := processMessages fetchDetail rest
        (r.1.map (nl :: ·), mid :: r.2)

/-- `grab_newsletters` (lines 195-243 of `main.py`), parameterized by the
token endpoint response, the search response (status and the ids of the
`messages` array, provider order), and the detail-fetch oracle. Steps: get
an access token (failure propagates, nothing fetched); on non-200 search
raise `HTTPException(500, ...)`; on an empty match list return `[]`;
otherwise run the detail loop over the first 10 ids. The second component
is the trace of detail fetches issued. -/
def grab_newsletters (tokenStatus : Nat) (tokenText : String)
    (tokenJson : Option String) (searchStatus : Nat)
    (searchMessages : List String) (fetchDetail : String → DetailResponse) :
    Except PyError (List Newsletter) × List String :=
  match (get_gmail_access_token tokenStatus tokenText tokenJson).1 with
  | .error e => (.error e, [])
  | .ok _ =>
    if searchStatus ≠ 200 then
      (.error (.http 500 "Failed to fetch newsletters from Gmail."), [])
    else if searchMessages.isEmpty then (.ok [], [])
    else
      let r := processMessages fetchDetail (searchMessages.take 10)
      (r.1.mapError .exn, r.2)

/-! ## Unfolding lemmas for the (well-founded) extractor -/

/-- A payload dict with a `parts` key delegates to the loop over its
children; its other fields are not consulted. -/
theorem extract_parts_eq (hs : List GHeader) (parts : List Payload) (mt bd : Option String) :
    extract_email_body (.withParts hs parts mt bd) = extractFromParts parts := by
  simp [extract_email_body]

/-- Unfolding of the leaf case of `extract_email_body`. -/
theorem extract_leaf_eq (hs : List GHeader) (mt bd : Option String) :
    extract_email_body (.leaf hs mt bd) =
      if mt = some "text/plain" ∨ mt = some "text/html" then
        match bd with
        | some data =>
          if data ≠ "" then
            match decodeBodyData data with
            | .error e => .error e
            | .ok t => .ok (some t)
          else .ok none
        | none => .ok none
      else .ok none := by
  simp [extract_email_body]

/-- The parts loop on an empty list falls through to `return None`. -/
theorem extractFromParts_nil : extractFromParts [] = .ok none := by
  simp [extractFromParts]

/-- Unfolding of the parts loop on a nonempty list. -/
theorem extractFromParts_cons (p : Payload) (rest : List Payload) :
    extractFromParts (p :: rest) =
      match extract_email_body p with
      | .error e => .error e
      | .ok body => if pyTruthy body then .ok body else extractFromParts rest := by
  simp [extractFromParts]

/-! ## C2 -/

/-- C2: for an empty newsletters sequence, `summarize` fails with
`HTTPException(400, "No newsletters provided")` and the LLM completion API
is never invoked (the second component of the result is the
was-the-LLM-called flag). -/
theorem summarize_empty_list_rejected_before_llm :
    ∀ (J : Type) (llm : String → String) (jsonLoads : List Char → Except String J),
      summarize llm jsonLoads [] = (.error (.http 400 "No newsletters provided"), false) := by
  intro J llm jsonLoads
  rfl

/-! ## C10 -/

/-- C10: a payload node with a `parts` key is never treated as a leaf: its
own `mimeType` and `body.data` are ignored (the result depends only on the
children), so when no descendant yields a truthy decoded body the
extractor returns `None` for the node, even when the node itself carries
`text/plain` with decodable body data — data that the same fields on a
leaf would decode to `"Hello"`. -/
theorem parts_node_ignores_own_fields :
    (∀ (hs hs' : List GHeader) (parts : List Payload) (mt bd mt' bd' : Option String),
      extract_email_body (.withParts hs parts mt bd)
        = extract_email_body (.withParts hs' parts mt' bd')) ∧
    (∀ (hs : List GHeader) (parts : List Payload) (mt bd : Option String),
      extractFromParts parts = .ok none →
        extract_email_body (.withParts hs parts mt bd) = .ok none) ∧
    extract_email_body (.withParts [] [] (some "text/plain") (some "SGVsbG8=")) = .ok none ∧
    extract_email_body (.leaf [] (some "text/plain") (some "SGVsbG8=")) = .ok (some "Hello") := by
  refine ⟨?_, ?_, ?_, ?_⟩
  · intro hs hs' parts mt bd mt' bd'
    rw [extract_parts_eq, extract_parts_eq]
  · intro hs parts mt bd h
    rw [extract_parts_eq, h]
  · rw [extract_parts_eq, extractFromParts_nil]
  · rw [extract_leaf_eq]
    simp [decodeBodyData, urlsafe_b64decode, a2b_base64_loop, b64CharVal, urlsafeTranslate,
      utf8DecodeIgnore, isCont, Except.map]

/-- Witness for C10: a childless `parts` node carrying decodable
`text/plain` data still yields `None`. -/
theorem parts_node_ignores_own_fields_witness :
    extract_email_body (.withParts [⟨"Subject", "x"⟩] [] (some "text/plain") (some "SGVsbG8="))
      = .ok none :=
  parts_node_ignores_own_fields.2.1 _ _ _ _ (by simp [extractFromParts])

/-! ## C4 -/

/-- Counterexample to C4: a payload whose first part is a `text/html` leaf
(decoding to `"<b>"`) and whose second part is a `text/plain` leaf with
non-empty decodable data (decoding to `"Hello"`). The extractor returns
the HTML body, not the plain-text one: there is no plain-over-HTML
preference, only document order. -/
theorem extractor_returns_html_before_plain :
    extract_email_body (.withParts []
        [.leaf [] (some "text/html") (some "PGI+"),
         .leaf [] (some "text/plain") (some "SGVsbG8=")] none none) = .ok (some "<b>") ∧
    extract_email_body (.leaf [] (some "text/plain") (some "SGVsbG8=")) = .ok (some "Hello") ∧
    ("<b>" : String) ≠ "Hello" := by
  refine ⟨?_, ?_, by decide⟩
  · rw [extract_parts_eq, extractFromParts_cons, extract_leaf_eq]
    simp [decodeBodyData, urlsafe_b64decode, a2b_base64_loop, b64CharVal, urlsafeTranslate,
      utf8DecodeIgnore, isCont, Except.map, pyTruthy]
  · rw [extract_leaf_eq]
    simp [decodeBodyData, urlsafe_b64decode, a2b_base64_loop, b64CharVal, urlsafeTranslate,
      utf8DecodeIgnore, isCont, Except.map]

/-- C4 as amended: the extractor returns the decoded body of the first
part (in document order, depth-first) whose extraction is truthy,
whatever its mime type; a part yielding `None` or an empty string is
skipped and the search continues with the later parts. -/
theorem extractor_returns_first_truthy_part :
    (∀ (hs : List GHeader) (mt bd : Option String) (p : Payload) (rest : List Payload)
        (s : String), extract_email_body p = .ok (some s) → s ≠ "" →
      extract_email_body (.withParts hs (p :: rest) mt bd) = .ok (some s)) ∧
    (∀ (hs : List GHeader) (mt bd : Option String) (p : Payload) (rest : List Payload),
      extract_email_body p = .ok none →
      extract_email_body (.withParts hs (p :: rest) mt bd)
        = extract_email_body (.withParts hs rest mt bd)) ∧
    (∀ (hs : List GHeader) (mt bd : Option String) (p : Payload) (rest : List Payload),
      extract_email_body p = .ok (some "") →
      extract_email_body (.withParts hs (p :: rest) mt bd)
        = extract_email_body (.withParts hs rest mt bd)) := by
  refine ⟨?_, ?_, ?_⟩
  · intro hs mt bd p rest s hp hs0
    rw [extract_parts_eq, extractFromParts_cons, hp]
    simp [pyTruthy, hs0]
  · intro hs mt bd p rest hp
    rw [extract_parts_eq, extractFromParts_cons, hp, extract_parts_eq]
    simp [pyTruthy]
  · intro hs mt bd p rest hp
    rw [extract_parts_eq, extractFromParts_cons, hp, extract_parts_eq]
    simp [pyTruthy]

/-- Witness for the amended C4: an HTML part placed first wins over a
later plain-text part. -/
theorem extractor_returns_first_truthy_part_witness :
    extract_email_body (.withParts []
        [.leaf [] (some "text/html") (some "PGI+"),
         .leaf [] (some "text/plain") (some "SGVsbG8=")] none none) = .ok (some "<b>") :=
  extractor_returns_first_truthy_part.1 [] none none _ _ "<b>"
    (by rw [extract_leaf_eq]
        simp [decodeBodyData, urlsafe_b64decode, a2b_base64_loop, b64CharVal, urlsafeTranslate,
          utf8DecodeIgnore, isCont, Except.map])
    (by decide)

/-! ## C3 -/

/-- Counterexample to C3: the extractor is not total and does not replace
undecodable bytes. A `text/plain` leaf whose `body.data` is `"A"` (one
base64 data character — invalid padding) makes `base64.urlsafe_b64decode`
raise, and the exception propagates out of the extractor instead of being
treated as absent. Moreover the byte-to-text stage drops undecodable
bytes rather than substituting replacement characters: the byte `0xFF`
before `"Hi"` simply disappears. -/
theorem extractor_not_total_on_bad_base64 :
    extract_email_body (.leaf [] (some "text/plain") (some "A"))
      = .error ("Invalid base64-encoded string: number of data characters (1)" ++
          " cannot be 1 more than a multiple of 4") ∧
    ¬ (∀ p : Payload, (extract_email_body p).isOk) ∧
    utf8DecodeIgnore [255, 72, 105] = ['H', 'i'] := by
  have h1 : extract_email_body (.leaf [] (some "text/plain") (some "A"))
      = .error ("Invalid base64-encoded string: number of data characters (1)" ++
          " cannot be 1 more than a multiple of 4") := by
    rw [extract_leaf_eq]
    simp [decodeBodyData, urlsafe_b64decode, a2b_base64_loop, b64CharVal, urlsafeTranslate,
      Except.map]
    rfl
  refine ⟨h1, fun hAll => ?_, by simp [utf8DecodeIgnore, isCont]⟩
  have := hAll (.leaf [] (some "text/plain") (some "A"))
  rw [h1] at this
  simp [Except.isOk, Except.toBool] at this

/-- C3 as amended: the byte-to-text stage is permissive and total —
whenever base64 decoding succeeds, the leaf yields a string obtained by
dropping (not replacing) undecodable bytes, and no error is possible at
that stage; but a base64 decoding failure propagates out of the extractor
as an error rather than being treated as absent. -/
theorem extractor_decode_stage_behavior :
    (∀ (hs : List GHeader) (d e : String), d ≠ "" → urlsafe_b64decode d = .error e →
      extract_email_body (.leaf hs (some "text/plain") (some d)) = .error e) ∧
    (∀ (hs : List GHeader) (d : String) (bs : List Nat), d ≠ "" →
      urlsafe_b64decode d = .ok bs →
      extract_email_body (.leaf hs (some "text/plain") (some d))
        = .ok (some (String.mk (utf8DecodeIgnore bs)))) := by
  constructor
  · intro hs d e hd herr
    rw [extract_leaf_eq]
    simp [hd, decodeBodyData, herr, Except.map]
  · intro hs d bs hd hok
    rw [extract_leaf_eq]
    simp [hd, decodeBodyData, hok, Except.map]

/-- Witness for the amended C3: the error branch at `"A"` and the
permissive branch at `"SGVsbG8="`. -/
theorem extractor_decode_stage_behavior_witness :
    extract_email_body (.leaf [] (some "text/plain") (some "A"))
      = .error ("Invalid base64-encoded string: number of data characters (1)" ++
          " cannot be 1 more than a multiple of 4") ∧
    extract_email_body (.leaf [] (some "text/plain") (some "SGVsbG8="))
      = .ok (some (String.mk (utf8DecodeIgnore [72, 101, 108, 108, 111]))) :=
  ⟨extractor_decode_stage_behavior.1 [] "A" _ (by decide) (by rfl),
   extractor_decode_stage_behavior.2 [] "SGVsbG8=" [72, 101, 108, 108, 111]
     (by decide) (by rfl)⟩

/-! ## C8 -/

/-- Counterexample to C8: on a non-200 token-endpoint response the raised
error's payload is the fixed string `"Failed to get Gmail access token."`;
it contains neither the provider's status (`403`) nor its body
(`"proxy denied"`) — those are only `print`ed to the server log. -/
theorem token_error_payload_lacks_provider_diagnostics :
    (get_gmail_access_token 403 "proxy denied" none).1
      = .error (.http 500 "Failed to get Gmail access token.") ∧
    ¬ ("403".data <:+: "Failed to get Gmail access token.".data) ∧
    ¬ ("proxy denied".data <:+: "Failed to get Gmail access token.".data) := by
  refine ⟨rfl, by decide, by decide⟩

/-- C8 as amended: on every non-200 response the provider's status and
body are printed to the log, and the call fails immediately (single
attempt, no retry) with `HTTPException(500, ...)` whose payload is a fixed
generic message. -/
theorem token_failure_logs_diagnostics_and_raises_500 :
    ∀ (status : Nat) (text : String) (tok : Option String), status ≠ 200 →
      get_gmail_access_token status text tok
        = (.error (.http 500 "Failed to get Gmail access token."),
           ["Status: " ++ toString status, "Text: " ++ text]) := by
  intro status text tok h
  simp [get_gmail_access_token, h]

/-- Witness for the amended C8 at status 403. -/
theorem token_failure_logs_diagnostics_and_raises_500_witness :
    get_gmail_access_token 403 "proxy denied" none
      = (.error (.http 500 "Failed to get Gmail access token."),
         ["Status: " ++ toString 403, "Text: " ++ "proxy denied"]) :=
  token_failure_logs_diagnostics_and_raises_500 403 "proxy denied" none (by decide)

/-! ## C7 -/

/-- C7: subject and sender are looked up in the header list by exact
case-sensitive name match, taking the first match when duplicates exist
and falling back to the defaults `"No Subject"` / `"Unknown Sender"`; a
lowercase `subject` header does not satisfy a lookup for `Subject`; and a
message fetched without any matching header produces a newsletter built
from exactly these lookups. -/
theorem header_lookup_case_sensitive_first_match :
    (∀ hs : List GHeader, (∀ h ∈ hs, h.name ≠ "Subject") →
      lookupHeader hs "Subject" "No Subject" = "No Subject") ∧
    (∀ hs : List GHeader, (∀ h ∈ hs, h.name ≠ "From") →
      lookupHeader hs "From" "Unknown Sender" = "Unknown Sender") ∧
    lookupHeader [⟨"subject", "lower"⟩] "Subject" "No Subject" = "No Subject" ∧
    (∀ (hs₁ hs₂ : List GHeader) (h : GHeader) (nm d : String), h.name = nm →
      (∀ h' ∈ hs₁, h'.name ≠ nm) →
      lookupHeader (hs₁ ++ h :: hs₂) nm d = h.value) ∧
    (∀ (mid : String) (hs : List GHeader),
      processMessages (fun _ => ⟨200, some (.leaf hs none none)⟩) [mid]
        = (.ok [⟨lookupHeader hs "Subject" "No Subject",
                 lookupHeader hs "From" "Unknown Sender", "[No content found]"⟩], [mid])) := by
  refine ⟨?_, ?_, rfl, ?_, ?_⟩
  · intro hs h
    have : hs.find? (fun h => h.name = "Subject") = none :=
      List.find?_eq_none.mpr (by intro x hx; simpa using h x hx)
    simp [lookupHeader, this]
  · intro hs h
    have : hs.find? (fun h => h.name = "From") = none :=
      List.find?_eq_none.mpr (by intro x hx; simpa using h x hx)
    simp [lookupHeader, this]
  · intro hs₁ hs₂ h nm d hname hnone
    have h1 : hs₁.find? (fun h => h.name = nm) = none :=
      List.find?_eq_none.mpr (by intro x hx; simpa using hnone x hx)
    have h2 : List.find? (fun h => h.name = nm) (h :: hs₂) = some h :=
      List.find?_cons_of_pos _ (by simpa using hname)
    simp [lookupHeader, List.find?_append, h1, h2]
  · intro mid hs
    have hx : extract_email_body (Payload.leaf hs none none) = .ok none := by
      rw [extract_leaf_eq]; simp
    simp [processMessages, hx, pyOrStr, Payload.headersOf, Except.map]

/-- Witness for C7: a lowercase `subject` header is skipped in favour of
the default, and the first of two `Subject` headers wins. -/
theorem header_lookup_case_sensitive_first_match_witness :
    lookupHeader [⟨"subject", "lower"⟩, ⟨"X-Id", "1"⟩] "Subject" "No Subject" = "No Subject" ∧
    lookupHeader ([⟨"X-Id", "1"⟩] ++ (⟨"Subject", "first"⟩ : GHeader) ::
        [⟨"Subject", "second"⟩]) "Subject" "No Subject" = "first" :=
  ⟨header_lookup_case_sensitive_first_match.1 _ (by decide),
   header_lookup_case_sensitive_first_match.2.2.2.1 [⟨"X-Id", "1"⟩] [⟨"Subject", "second"⟩]
     ⟨"Subject", "first"⟩ "Subject" "No Subject" (by decide) (by decide)⟩

/-! ## Fetch-loop lemmas -/

/-- The trace of detail fetches issued by the loop is a prefix of the id
list, and is the whole id list whenever the loop finishes without a
propagating exception. -/
theorem processMessages_trace (fd : String → DetailResponse) :
    ∀ l : List String, (processMessages fd l).2 <+: l ∧
      (∀ nls, (processMessages fd l).1 = .ok nls → (processMessages fd l).2 = l) := by
  intro l
  induction l with
  | nil => exact ⟨⟨[], rfl⟩, by intro nls _; rfl⟩
  | cons mid rest ih =>
    by_cases hst : (fd mid).status ≠ 200
    · constructor
      · obtain ⟨u, hu⟩ := ih.1
        exact ⟨u, by simp [processMessages, hst, hu]⟩
      · intro nls h
        simp only [processMessages, if_pos hst] at h ⊢
        rw [ih.2 nls h]
    · rcases hex : extract_email_body ((fd mid).payload.getD defaultPayload) with e | body
      · constructor
        · exact ⟨rest, by simp [processMessages, hst, hex]⟩
        · intro nls h
          simp [processMessages, hst, hex] at h
      · constructor
        · obtain ⟨u, hu⟩ := ih.1
          exact ⟨u, by simp [processMessages, hst, hex, hu]⟩
        · intro nls h
          simp only [processMessages, if_neg hst, hex] at h ⊢
          rcases h1 : (processMessages fd rest).1 with e' | nls'
          · rw [h1] at h; simp [Except.map] at h
          · rw [ih.2 nls' h1]

/-- When every successfully fetched payload extracts without a propagating
exception, the loop succeeds and produces one newsletter per id whose
detail fetch returned status 200. -/
theorem processMessages_count (fd : String → DetailResponse) :
    ∀ l : List String,
      (∀ mid ∈ l, (fd mid).status = 200 →
        (extract_email_body ((fd mid).payload.getD defaultPayload)).isOk = true) →
      ∃ nls, (processMessages fd l).1 = .ok nls ∧
        nls.length = l.countP (fun mid => (fd mid).status == 200) := by
  intro l
  induction l with
  | nil => exact fun _ => ⟨[], rfl, rfl⟩
  | cons mid rest ih =>
    intro hok
    obtain ⟨nls, h1, h2⟩ := ih (fun m hm => hok m (List.mem_cons_of_mem _ hm))
    by_cases hst : (fd mid).status ≠ 200
    · refine ⟨nls, ?_, ?_⟩
      · simp [processMessages, hst, h1]
      · rw [h2, List.countP_cons]
        simp [hst]
    · have h200 : (fd mid).status = 200 := by omega
      have hex := hok mid (List.mem_cons_self _ _) h200
      rcases hb : extract_email_body ((fd mid).payload.getD defaultPayload) with e | body
      · rw [hb] at hex; simp [Except.isOk, Except.toBool] at hex
      · refine ⟨⟨lookupHeader ((fd mid).payload.getD defaultPayload).headersOf
            "Subject" "No Subject",
          lookupHeader ((fd mid).payload.getD defaultPayload).headersOf
            "From" "Unknown Sender",
          pyOrStr body "[No content found]"⟩ :: nls, ?_, ?_⟩
        · simp [processMessages, hst, hb, h1, Except.map]
        · rw [List.countP_cons]
          simp [h200, h2]

/-- Every newsletter built by the loop has the placeholder or a truthy
extracted body as its content, never the empty string. -/
theorem processMessages_content (fd : String → DetailResponse) :
    ∀ (l : List String) (nls : List Newsletter),
      (processMessages fd l).1 = .ok nls → ∀ nl ∈ nls, nl.content ≠ "" := by
  intro l
  induction l with
  | nil =>
    intro nls h nl hnl
    simp only [processMessages] at h
    obtain rfl : ([] : List Newsletter) = nls := by simpa using h
    simp at hnl
  | cons mid rest ih =>
    intro nls h nl hnl
    by_cases hst : (fd mid).status ≠ 200
    · simp only [processMessages, if_pos hst] at h
      exact ih nls h nl hnl
    · rcases hb : extract_email_body ((fd mid).payload.getD defaultPayload) with e | body
      · simp [processMessages, hst, hb] at h
      · simp only [processMessages, if_neg hst, hb] at h
        rcases h1 : (processMessages fd rest).1 with e' | nls'
        · rw [h1] at h; simp [Except.map] at h
        · rw [h1] at h
          simp only [Except.map] at h
          injection h with h2
          subst h2
          rcases List.mem_cons.mp hnl with rfl | hmem
          · rcases body with _ | s
            · simp [pyOrStr]
            · by_cases hs : s = "" <;> simp [pyOrStr, hs]
          · exact ih nls' h1 nl hmem

/-! ## C5 -/

/-- C5: with a successful token exchange and search, and more than 10
matching message ids, the detail fetches issued are always an initial
segment of the first 10 ids in provider order (so ids beyond the tenth are
never requested), and when the call completes successfully the trace is
exactly the first 10 ids. -/
theorem fetcher_caps_at_first_ten :
    ∀ (tokenText : String) (tokenJson : Option String) (msgs : List String)
      (fd : String → DetailResponse), 10 < msgs.length →
      (grab_newsletters 200 tokenText tokenJson 200 msgs fd).2 <+: msgs.take 10 ∧
      (∀ nls, (grab_newsletters 200 tokenText tokenJson 200 msgs fd).1 = .ok nls →
        (grab_newsletters 200 tokenText tokenJson 200 msgs fd).2 = msgs.take 10) := by
  intro tT tJ msgs fd hlen
  have hne : msgs.isEmpty = false := by
    cases msgs with
    | nil => simp at hlen
    | cons a l => rfl
  have hg : grab_newsletters 200 tT tJ 200 msgs fd
      = ((processMessages fd (msgs.take 10)).1.mapError .exn,
         (processMessages fd (msgs.take 10)).2) := by
    simp [grab_newsletters, get_gmail_access_token, hne]
  constructor
  · rw [hg]
    exact (processMessages_trace fd (msgs.take 10)).1
  · intro nls h
    rw [hg] at h ⊢
    rcases h1 : (processMessages fd (msgs.take 10)).1 with e | nls'
    · rw [h1] at h
      simp [Except.mapError] at h
    · exact (processMessages_trace fd (msgs.take 10)).2 nls' h1

/-- Witness for C5: 15 matching ids, all detail fetches failing with 500 —
exactly the first 10 ids are requested, in order. -/
theorem fetcher_caps_at_first_ten_witness :
    (grab_newsletters 200 "" none 200
      ["m01", "m02", "m03", "m04", "m05", "m06", "m07", "m08", "m09", "m10",
       "m11", "m12", "m13", "m14", "m15"]
      (fun _ => ⟨500, none⟩)).2
      = ["m01", "m02", "m03", "m04", "m05", "m06", "m07", "m08", "m09", "m10"] := by
  have h := fetcher_caps_at_first_ten "" none
    ["m01", "m02", "m03", "m04", "m05", "m06", "m07", "m08", "m09", "m10",
     "m11", "m12", "m13", "m14", "m15"]
    (fun _ => ⟨500, none⟩) (by decide)
  rw [h.2 [] (by rfl)]
  rfl

/-! ## C6 -/

/-- C6: with 10 matching ids, exactly one of which gets a non-200 detail
response (and the successfully fetched payloads extracting without a
propagating exception), the call still succeeds and returns 9 newsletters:
the failed message is skipped and no error is surfaced. Stated via the
count of ids whose detail fetch returns 200. -/
theorem fetcher_skips_failed_detail_fetch :
    ∀ (tokenText : String) (tokenJson : Option String) (msgs : List String)
      (fd : String → DetailResponse),
      msgs.length = 10 →
      (∀ mid ∈ msgs, (fd mid).status = 200 →
        (extract_email_body ((fd mid).payload.getD defaultPayload)).isOk = true) →
      msgs.countP (fun mid => (fd mid).status == 200) = 9 →
      ∃ nls, (grab_newsletters 200 tokenText tokenJson 200 msgs fd).1 = .ok nls ∧
        nls.length = 9 := by
  intro tT tJ msgs fd hlen hok hcnt
  have htake : msgs.take 10 = msgs := by rw [← hlen, List.take_length]
  have hne : msgs.isEmpty = false := by
    cases msgs with
    | nil => simp at hlen
    | cons a l => rfl
  obtain ⟨nls, h1, h2⟩ := processMessages_count fd msgs hok
  refine ⟨nls, ?_, by rw [h2, hcnt]⟩
  simp [grab_newsletters, get_gmail_access_token, hne, htake, h1, Except.mapError]

/-- Witness for C6: ten ids, the fourth one answering 500, the others
delivering a header-less payload — the call succeeds with 9 entries. -/
theorem fetcher_skips_failed_detail_fetch_witness :
    ∃ nls, (grab_newsletters 200 "" none 200
        ["m01", "m02", "m03", "m04", "m05", "m06", "m07", "m08", "m09", "m10"]
        (fun mid => if mid = "m04" then ⟨500, none⟩
                    else ⟨200, some (.leaf [] none none)⟩)).1 = .ok nls ∧
      nls.length = 9 := by
  have hx : extract_email_body (Payload.leaf [] none none) = .ok none := by
    rw [extract_leaf_eq]; simp
  refine fetcher_skips_failed_detail_fetch "" none _ _ rfl ?_ (by decide)
  intro mid _ _
  by_cases h : mid = "m04" <;>
    simp [h, hx, defaultPayload, Except.isOk, Except.toBool]

/-! ## C9 -/

/-- C9: every newsletter record in a successful result of the fetcher has
a non-empty content string — absent or empty extracted bodies are replaced
by the `"[No content found]"` placeholder. -/
theorem newsletter_content_never_empty :
    ∀ (tokenStatus : Nat) (tokenText : String) (tokenJson : Option String)
      (searchStatus : Nat) (msgs : List String) (fd : String → DetailResponse)
      (nls : List Newsletter),
      (grab_newsletters tokenStatus tokenText tokenJson searchStatus msgs fd).1 = .ok nls →
      ∀ nl ∈ nls, nl.content ≠ "" := by
  intro tS tT tJ sS msgs fd nls h nl hnl
  unfold grab_newsletters at h
  rcases htok : (get_gmail_access_token tS tT tJ).1 with e | tok
  · rw [htok] at h
    simp at h
  · rw [htok] at h
    by_cases hsS : sS ≠ 200
    · simp [hsS] at h
    · by_cases hemp : msgs.isEmpty
      · simp [hsS, hemp] at h
        subst h
        simp at hnl
      · simp only [hsS, hemp, if_neg, ite_false, Bool.false_eq_true] at h
        rcases h1 : (processMessages fd (msgs.take 10)).1 with e' | nls'
        · rw [h1] at h
          simp [Except.mapError] at h
        · rw [h1] at h
          simp only [Except.mapError] at h
          injection h with h2
          subst h2
          exact processMessages_content fd (msgs.take 10) nls' h1 nl hnl

/-- Witness for C9: a fetched message with no headers and no body yields
the placeholder content, which is non-empty. -/
theorem newsletter_content_never_empty_witness :
    (Newsletter.mk "No Subject" "Unknown Sender" "[No content found]").content ≠ "" := by
  have hx : extract_email_body (Payload.leaf [] none none) = .ok none := by
    rw [extract_leaf_eq]; simp
  refine newsletter_content_never_empty 200 "" none 200 ["m1"]
    (fun _ => ⟨200, some (.leaf [] none none)⟩)
    [⟨"No Subject", "Unknown Sender", "[No content found]"⟩] ?_ _ (by simp)
  simp [grab_newsletters, get_gmail_access_token, processMessages, hx, pyOrStr,
    Payload.headersOf, lookupHeader, Except.map, Except.mapError]

/-! ## C1 -/

/-- C1: for every model response, the span handed to the JSON parser is
exactly the text from the first brace-open through the last brace-close
(prose before and after is ignored, newlines included); when no such span
exists or the parser fails on it, the call fails with
`HTTPException(500, ...)` whose detail embeds the parser failure text; and
a digest is returned exactly when a span exists and parses — never a
partial or empty one. -/
theorem digest_extracts_first_to_last_brace_span :
    (∀ pre mid post : List Char, '{' ∉ pre → '}' ∉ post →
      extractJsonSpan (pre ++ '{' :: (mid ++ '}' :: post)) = some ('{' :: (mid ++ ['}']))) ∧
    (∀ (J : Type) (jsonLoads : List Char → Except String J) (text : List Char),
      (extractJsonSpan text = none →
        parseModelResponse jsonLoads text =
          .error (.http 500 ("Failed to parse JSON from GPT: " ++ noSpanMsg))) ∧
      (∀ span e, extractJsonSpan text = some span → jsonLoads span = .error e →
        parseModelResponse jsonLoads text =
          .error (.http 500 ("Failed to parse JSON from GPT: " ++ e))) ∧
      (∀ d, parseModelResponse jsonLoads text = .ok d ↔
        ∃ span, extractJsonSpan text = some span ∧ jsonLoads span = .ok d)) := by
  constructor
  · intro pre mid post hpre hpost
    have hp : pre.findIdx? (· = '{') = none := by
      rw [List.findIdx?_eq_none_iff]
      intro x hx
      simp only [decide_eq_false_iff_not]
      intro heq
      exact hpre (heq ▸ hx)
    have hfo : firstOpenIdx (pre ++ '{' :: (mid ++ '}' :: post)) = some pre.length := by
      rw [firstOpenIdx, List.findIdx?_append, hp, Option.none_or, List.findIdx?_cons]
      simp
    have hrev : (pre ++ '{' :: (mid ++ '}' :: post)).reverse
        = post.reverse ++ '}' :: (mid.reverse ++ '{' :: pre.reverse) := by
      simp
    have hpo : post.reverse.findIdx? (· = '}') = none := by
      rw [List.findIdx?_eq_none_iff]
      intro x hx
      simp only [decide_eq_false_iff_not]
      intro heq
      exact hpost (heq ▸ (List.mem_reverse.mp hx))
    have hk : (pre ++ '{' :: (mid ++ '}' :: post)).reverse.findIdx? (· = '}')
        = some post.length := by
      rw [hrev, List.findIdx?_append, hpo, Option.none_or, List.findIdx?_cons]
      simp
    have hlast : lastCloseIdx (pre ++ '{' :: (mid ++ '}' :: post))
        = some (pre.length + (mid.length + 1)) := by
      rw [lastCloseIdx, hk]
      simp only [Option.map_some']
      congr 1
      simp only [List.length_append, List.length_cons]
      omega
    simp only [extractJsonSpan, hfo, hlast]
    rw [if_pos (by omega)]
    congr 1
    rw [List.drop_left pre ('{' :: (mid ++ '}' :: post))]
    have harith : pre.length + (mid.length + 1) + 1 - pre.length = mid.length + 1 + 1 := by
      omega
    rw [harith, List.take_succ_cons]
    congr 1
    rw [show mid.length + 1 = mid.length + 1 from rfl, List.take_append]
    simp
  · intro J jsonLoads text
    refine ⟨?_, ?_, ?_⟩
    · intro h
      simp [parseModelResponse, h]
    · intro span e h1 h2
      simp [parseModelResponse, h1, h2]
    · intro d
      constructor
      · intro h
        rcases hE : extractJsonSpan text with _ | span
        · simp [parseModelResponse, hE] at h
        · rcases hL : jsonLoads span with e | d'
          · simp [parseModelResponse, hE, hL] at h
          · simp only [parseModelResponse, hE, hL] at h
            injection h with h2
            exact ⟨span, rfl, by rw [hL, h2]⟩
      · rintro ⟨span, h1, h2⟩
        simp [parseModelResponse, h1, h2]

/-- Witness for C1: a span surrounded by prose is extracted exactly, and a
response with no span at all yields the 500 with the parser failure
text. -/
theorem digest_extracts_first_to_last_brace_span_witness :
    extractJsonSpan ("ab".data ++ '{' :: ("x".data ++ '}' :: "cd".data))
      = some ('{' :: ("x".data ++ ['}'])) ∧
    parseModelResponse (fun _ => (.error "boom" : Except String Nat)) "no braces".data
      = .error (.http 500 ("Failed to parse JSON from GPT: " ++ noSpanMsg)) :=
  ⟨digest_extracts_first_to_last_brace_span.1 "ab".data "x".data "cd".data
      (by decide) (by decide),
   (digest_extracts_first_to_last_brace_span.2 Nat (fun _ => .error "boom")
      "no braces".data).1 (by rfl)⟩

end MetaNewsletter
